import Mathlib

/-!
Verification of the validated submission pipeline of the diabetes
risk-prediction frontend (src/src/pages/Index.tsx): the zod form schema,
the request/response mapping in `onSubmit`, the loading/result state,
and the result display branch.

Numeric form values are modelled as rationals (ℚ); the result of the
JavaScript `Number()` coercion that `z.coerce.number()` performs is
modelled by `RawNum`, whose `nan` constructor stands for a non-numeric
input. Strings are Lean `String`s.
-/

namespace Diabetes

/-- A JSON scalar as it appears in the request body built by `onSubmit`. -/
inductive JsonVal where
  | str (s : String)
  | num (q : ℚ)
deriving DecidableEq, Repr

/-- The value of a numeric form field after the `Number()` coercion done by
`z.coerce.number()`: a finite number, or NaN for non-numeric input. -/
inductive RawNum where
  | num (q : ℚ)
  | nan
deriving DecidableEq, Repr

/-- Pre-validation form input: the four select fields as strings, the four
numeric fields as coerced numbers (`RawInput` is the argument zod's
`formSchema.parse` receives, field for field). -/
structure RawInput where
  gender : String
  age : RawNum
  hypertension : String
  heartDisease : String
  smokingHistory : String
  bmi : RawNum
  hba1c : RawNum
  bloodGlucose : RawNum
deriving DecidableEq, Repr

/-- `type FormData = z.infer<typeof formSchema>`: the validated record. -/
structure FormData where
  gender : String
  age : ℚ
  hypertension : String
  heartDisease : String
  smokingHistory : String
  bmi : ℚ
  hba1c : ℚ
  bloodGlucose : ℚ
deriving DecidableEq, Repr

/-- `z.string().min(1, msg)`: an error message iff the string is empty
(length < 1). -/
def strErr (msg : String) (s : String) : Option String :=
  if 1 ≤ s.length then none else some msg

/-- `z.coerce.number().min(lo, minMsg).max(hi, maxMsg)`: NaN fails the
number type check (zod's invalid_type issue); a number out of bounds
fails with the named bound message. -/
def numErr (lo hi : ℚ) (minMsg maxMsg : String) : RawNum → Option String
  | .nan => some "Expected number, received nan"
  | .num q => if q < lo then some minMsg else if hi < q then some maxMsg else none

def genderErr (r : RawInput) : Option String :=
  strErr "Please select gender" r.gender

def ageErr (r : RawInput) : Option String :=
  numErr 1 120 "Age must be at least 1" "Age must be less than 120" r.age

def hypertensionErr (r : RawInput) : Option String :=
  strErr "Please select hypertension status" r.hypertension

def heartDiseaseErr (r : RawInput) : Option String :=
  strErr "Please select heart disease status" r.heartDisease

def smokingHistoryErr (r : RawInput) : Option String :=
  strErr "Please select smoking history" r.smokingHistory

def bmiErr (r : RawInput) : Option String :=
  numErr 10 60 "BMI must be at least 10" "BMI must be less than 60" r.bmi

def hba1cErr (r : RawInput) : Option String :=
  numErr 3 15 "HbA1c must be at least 3" "HbA1c must be less than 15" r.hba1c

def bloodGlucoseErr (r : RawInput) : Option String :=
  numErr 50 400 "Blood glucose must be at least 50" "Blood glucose must be less than 400"
    r.bloodGlucose

/-- The (possibly empty) list of error entries one field contributes. -/
def entries (name : String) : Option String → List (String × String)
  | none => []
  | some m => [(name, m)]

/-- The per-field error map zod reports for a parse of `formSchema`:
every field is checked independently and every failing field contributes
exactly one entry (zod does not abort on the first issue). -/
def fieldErrors (r : RawInput) : List (String × String) :=
  entries "gender" (genderErr r) ++ entries "age" (ageErr r) ++
  entries "hypertension" (hypertensionErr r) ++
  entries "heartDisease" (heartDiseaseErr r) ++
  entries "smokingHistory" (smokingHistoryErr r) ++ entries "bmi" (bmiErr r) ++
  entries "hba1c" (hba1cErr r) ++ entries "bloodGlucose" (bloodGlucoseErr r)

/-- `formSchema.parse`: succeeds with the validated record exactly when no
field reports an issue; otherwise fails with the full per-field error map. -/
def validate (r : RawInput) : Except (List (String × String)) FormData :=
  match r.age, r.bmi, r.hba1c, r.bloodGlucose with
  | .num a, .num b, .num h1, .num g =>
    if fieldErrors r = [] then
      .ok ⟨r.gender, a, r.hypertension, r.heartDisease, r.smokingHistory, b, h1, g⟩
    else
      .error (fieldErrors r)
  | _, _, _, _ => .error (fieldErrors r)

/-- `true` iff validation succeeded. -/
def validOk (r : RawInput) : Bool :=
  match validate r with
  | .ok _ => true
  | .error _ => false

/-- The JSON request body `onSubmit` builds for `POST /predict`, key by key
in source order: `hypertension` and `heart_disease` encoded `1` for `"yes"`
else `0`, numeric fields as numbers, `gender` and `smoking_history`
passed through unchanged. -/
def toWire (d : FormData) : List (String × JsonVal) :=
  [("gender", .str d.gender),
   ("age", .num d.age),
   ("hypertension", .num (if d.hypertension = "yes" then 1 else 0)),
   ("heart_disease", .num (if d.heartDisease = "yes" then 1 else 0)),
   ("smoking_history", .str d.smokingHistory),
   ("bmi", .num d.bmi),
   ("HbA1c_level", .num d.hba1c),
   ("blood_glucose_level", .num d.bloodGlucose)]

/-- How the awaited network call resolves, as observed inside `onSubmit`:
`ok fr` means `fetch` resolved and `response.json()` parsed, with `fr` the
`final_result` field of the parsed body (`none` when the key is missing or
not a string); `fail` means `fetch` rejected (network unreachable,
timeout) or `response.json()` threw (malformed body), landing in the
`catch` block. -/
inductive NetResult where
  | ok (finalResult : Option String)
  | fail
deriving DecidableEq, Repr

/-- The `PredictionResult` record stored with `setResult`. The TypeScript
interface declares `prediction: "diabetic" | "non-diabetic"`, but the
`catch` branch assigns the string `"Error connecting to server."`, so the
runtime type is an arbitrary string. `confidence` is `number | null`
(`null` modelled as `none`). -/
structure PredictionResult where
  prediction : String
  confidence : Option ℚ
deriving DecidableEq, Repr

/-- The component state owned by `Index`: the `result` and `isLoading`
`useState` hooks. -/
structure ControllerState where
  result : Option PredictionResult
  isLoading : Bool
deriving DecidableEq, Repr

/-- The synchronous prefix of `onSubmit`, before any network activity:
`setIsLoading(true); setResult(null)`. -/
def startSubmit (_s : ControllerState) : ControllerState :=
  { result := none, isLoading := true }

/-- The `PredictionResult` built from how the call resolved: on a parsed
body, `final_result === "Diabetic" ? "diabetic" : "non-diabetic"` with
`confidence: null`; in the `catch` block,
`{ prediction: "Error connecting to server.", confidence: null }`. -/
def interpretResponse : NetResult → PredictionResult
  | .ok fr =>
    { prediction := if fr = some "Diabetic" then "diabetic" else "non-diabetic",
      confidence := none }
  | .fail => { prediction := "Error connecting to server.", confidence := none }

/-- One complete run of `onSubmit` from state `s`, with the network
resolving as `n`: reset, await, store the interpreted result, and
`setIsLoading(false)` on both paths. -/
def onSubmit (s : ControllerState) (n : NetResult) : ControllerState :=
  let s1 := startSubmit s
  { s1 with result := some (interpretResponse n), isLoading := false }

/-- A press of the submit button: the button carries `disabled={isLoading}`,
so while a submission is in flight the press does nothing; otherwise one
`onSubmit` run starts. The second component counts network calls issued. -/
def trySubmit (s : ControllerState) (n : NetResult) : ControllerState × Nat :=
  if s.isLoading then (s, 0) else (onSubmit s n, 1)

/-- What the result block renders: nothing while `result` is null, the
destructive "High Risk: Diabetes Detected" alert when
`result.prediction === "diabetic"`, and the success-styled
"Low Risk: No Diabetes Detected" alert for every other prediction value. -/
inductive Rendering where
  | noResult
  | diabeticAlert
  | nonDiabeticAlert
deriving DecidableEq, Repr

/-- The display state derived from the component state (lines 309-344). -/
def render (s : ControllerState) : Rendering :=
  match s.result with
  | none => .noResult
  | some r => if r.prediction = "diabetic" then .diabeticAlert else .nonDiabeticAlert

/-- Whether the confidence percentage line renders:
`{result.confidence && ...}` is shown iff `confidence` is truthy, i.e.
neither null nor 0. -/
def showConfidence (r : PredictionResult) : Bool :=
  match r.confidence with
  | none => false
  | some c => if c = 0 then false else true

/-- Concrete scenario A input (spec §8), post-coercion. -/
def scenarioA : RawInput :=
  ⟨"female", .num 45, "no", "no", "never", .num 24.5, .num 5.7, .num 100⟩

/-- The validated record scenario A is expected to produce. -/
def dataA : FormData := ⟨"female", 45, "no", "no", "never", 24.5, 5.7, 100⟩

/-- Concrete scenario B input: age 0, every other field valid. -/
def scenarioB : RawInput :=
  ⟨"female", .num 0, "no", "no", "never", .num 24.5, .num 5.7, .num 100⟩

/-- An input whose enum-like fields hold non-empty strings outside the
declared sets (gender not in {male, female, other}, hypertension not in
{yes, no}), all numeric fields valid. -/
def bananaInput : RawInput :=
  ⟨"banana", .num 45, "maybe", "no", "never", .num 24.5, .num 5.7, .num 100⟩

/-- An input whose age field is non-numeric (NaN after coercion), every
other field valid. -/
def nanAgeInput : RawInput :=
  ⟨"female", .nan, "no", "no", "never", .num 24.5, .num 5.7, .num 100⟩

theorem strErr_eq_none (msg : String) (s : String) : strErr msg s = none ↔ s ≠ "" := by
  cases s with
  | mk data =>
    cases data with
    | nil => simp [strErr, String.length]
    | cons c cs => simp [strErr, String.length, String.ext_iff]

theorem strErr_empty (msg : String) : strErr msg "" = some msg := by
  simp [strErr, String.length]

theorem strErr_of_ne (msg : String) {s : String} (h : s ≠ "") : strErr msg s = none :=
  (strErr_eq_none msg s).mpr h

theorem entries_eq_nil (n : String) (o : Option String) : entries n o = [] ↔ o = none := by
  cases o <;> simp [entries]

theorem mem_entries (n n' m : String) (o : Option String) :
    (n, m) ∈ entries n' o ↔ n = n' ∧ o = some m := by
  cases o with
  | none => simp [entries]
  | some v =>
    simp [entries]
    aesop

theorem fieldErrors_eq_nil (r : RawInput) :
    fieldErrors r = [] ↔
      genderErr r = none ∧ ageErr r = none ∧ hypertensionErr r = none ∧
      heartDiseaseErr r = none ∧ smokingHistoryErr r = none ∧ bmiErr r = none ∧
      hba1cErr r = none ∧ bloodGlucoseErr r = none := by
  simp [fieldErrors, List.append_eq_nil, entries_eq_nil]

theorem numErr_nan_ne_none (lo hi : ℚ) (m1 m2 : String) :
    numErr lo hi m1 m2 RawNum.nan ≠ none := by
  simp [numErr]

theorem validate_of_errors (r : RawInput) (h : fieldErrors r ≠ []) :
    validate r = Except.error (fieldErrors r) := by
  obtain ⟨g, a, hy, hd, sm, b, h1, gl⟩ := r
  cases a <;> cases b <;> cases h1 <;> cases gl <;> simp_all [validate]

theorem validOk_iff (r : RawInput) : validOk r = true ↔ fieldErrors r = [] := by
  by_cases hfe : fieldErrors r = []
  · have h8 := (fieldErrors_eq_nil r).mp hfe
    obtain ⟨g, a, hy, hd, sm, b, h1, gl⟩ := r
    cases a with
    | nan => exact absurd h8.2.1 (by simp [ageErr, numErr])
    | num qa =>
      cases b with
      | nan => exact absurd h8.2.2.2.2.2.1 (by simp [bmiErr, numErr])
      | num qb =>
        cases h1 with
        | nan => exact absurd h8.2.2.2.2.2.2.1 (by simp [hba1cErr, numErr])
        | num qh =>
          cases gl with
          | nan => exact absurd h8.2.2.2.2.2.2.2 (by simp [bloodGlucoseErr, numErr])
          | num qg => simp [validOk, validate, hfe]
  · have hv := validate_of_errors r hfe
    simp [validOk, hv, hfe]

/-- C1: on a failed network call the stored outcome is the error variant
(`prediction = "Error connecting to server."`), which is distinct from the
non-diabetic value — but the result display's two-way branch nevertheless
renders the success-styled "Low Risk: No Diabetes Detected" alert for it,
because every prediction other than `"diabetic"` takes the non-diabetic
branch. This evaluates the code at the failing input. -/
theorem network_failure_renders_low_risk :
    (interpretResponse NetResult.fail).prediction = "Error connecting to server." ∧
    (interpretResponse NetResult.fail).prediction ≠ "non-diabetic" ∧
    render (onSubmit ⟨none, false⟩ NetResult.fail) = Rendering.nonDiabeticAlert := by
  refine ⟨rfl, by decide, ?_⟩
  simp +decide [render, onSubmit, startSubmit, interpretResponse]

/-- C2 counterexample: a response whose `final_result` is an unrecognized
label ("Unknown") or missing entirely is mapped to the non-diabetic
prediction, not to an error outcome. -/
theorem unrecognized_label_counterexample :
    (interpretResponse (NetResult.ok (some "Unknown"))).prediction = "non-diabetic" ∧
    (interpretResponse (NetResult.ok none)).prediction = "non-diabetic" ∧
    ("Unknown" : String) ≠ "Diabetic" ∧ ("Unknown" : String) ≠ "Non-Diabetic" := by
  refine ⟨?_, ?_, by decide, by decide⟩ <;> simp +decide [interpretResponse]

/-- C2 amended: every parsed response whose `final_result` differs from the
exact label "Diabetic" — unrecognized and missing values included — yields
the non-diabetic prediction with null confidence; no error outcome exists
on this path. -/
theorem non_diabetic_catch_all (fr : Option String) (h : fr ≠ some "Diabetic") :
    interpretResponse (NetResult.ok fr) = ⟨"non-diabetic", none⟩ := by
  simp [interpretResponse, h]

/-- C2 amended, witnessed at `final_result = "Unknown"`. -/
theorem non_diabetic_catch_all_witness :
    (some "Unknown" ≠ some "Diabetic") ∧
    interpretResponse (NetResult.ok (some "Unknown")) = ⟨"non-diabetic", none⟩ :=
  ⟨by decide, non_diabetic_catch_all (some "Unknown") (by decide)⟩

/-- C3 counterexample: the schema checks the select fields only with
`.min(1)`, so an input whose gender ("banana") and hypertension ("maybe")
lie outside the declared sets still validates successfully. -/
theorem enum_membership_not_enforced :
    validOk bananaInput = true ∧
    bananaInput.gender ≠ "male" ∧ bananaInput.gender ≠ "female" ∧
    bananaInput.gender ≠ "other" ∧
    bananaInput.hypertension ≠ "yes" ∧ bananaInput.hypertension ≠ "no" := by
  refine ⟨?_, by decide, by decide, by decide, by decide, by decide⟩
  rw [validOk_iff, fieldErrors_eq_nil]
  norm_num +decide [genderErr, ageErr, hypertensionErr, heartDiseaseErr, smokingHistoryErr,
    bmiErr, hba1cErr, bloodGlucoseErr, numErr, strErr, bananaInput]

/-- C3 amended: with valid numeric fields fixed, validation accepts the
four select fields exactly when each is a non-empty string; membership in
the declared sets {male, female, other}, {yes, no},
{never, current, former, ever, not_current} is enforced only by the fixed
options of the UI selects, not by the validator. -/
theorem enum_fields_checked_nonempty_only (g hy hd sm : String) :
    validOk ⟨g, .num 45, hy, hd, sm, .num 24.5, .num 5.7, .num 100⟩ = true ↔
      (g ≠ "" ∧ hy ≠ "" ∧ hd ≠ "" ∧ sm ≠ "") := by
  rw [validOk_iff, fieldErrors_eq_nil]
  norm_num [genderErr, ageErr, hypertensionErr, heartDiseaseErr, smokingHistoryErr,
    bmiErr, hba1cErr, bloodGlucoseErr, numErr, strErr_eq_none]

/-- C4: a press of the submit button while a submission is in flight
(`isLoading = true`, the `Submitting` state) is rejected by the button's
`disabled={isLoading}` guard: the state is unchanged and no network call
is issued, so a second submission never becomes concurrently active. -/
theorem submit_while_loading_rejected (s : ControllerState) (n : NetResult)
    (h : s.isLoading = true) : trySubmit s n = (s, 0) := by
  simp [trySubmit, h]

/-- C4, witnessed at a loading state holding no result. -/
theorem submit_while_loading_rejected_witness :
    (⟨none, true⟩ : ControllerState).isLoading = true ∧
    trySubmit ⟨none, true⟩ NetResult.fail = (⟨none, true⟩, 0) :=
  ⟨rfl, submit_while_loading_rejected ⟨none, true⟩ NetResult.fail rfl⟩

/-- C5: scenario A validates successfully and `onSubmit` serializes the
validated record to exactly the documented wire body: `hypertension` and
`heart_disease` encoded 0 (not "yes"), `gender` and `smoking_history`
unchanged, the numeric fields as numbers under their wire keys. -/
theorem scenarioA_wire_mapping :
    validate scenarioA = Except.ok dataA ∧
    toWire dataA =
      [("gender", JsonVal.str "female"), ("age", JsonVal.num 45),
       ("hypertension", JsonVal.num 0), ("heart_disease", JsonVal.num 0),
       ("smoking_history", JsonVal.str "never"), ("bmi", JsonVal.num 24.5),
       ("HbA1c_level", JsonVal.num 5.7), ("blood_glucose_level", JsonVal.num 100)] := by
  constructor
  · norm_num +decide [validate, fieldErrors, entries, genderErr, ageErr, hypertensionErr,
      heartDiseaseErr, smokingHistoryErr, bmiErr, hba1cErr, bloodGlucoseErr, numErr, strErr,
      scenarioA, dataA]
  · norm_num +decide [toWire, dataA]

/-- C6: the per-field error map contains, for each field name, exactly the
entry that field's own check produces — one entry per violating field,
none for a compliant field, every field checked independently — and the
concrete age-0 input fails with the single error naming the minimum
bound 1. -/
theorem error_map_exact_per_field :
    (∀ (r : RawInput) (m : String),
      (("gender", m) ∈ fieldErrors r ↔ genderErr r = some m) ∧
      (("age", m) ∈ fieldErrors r ↔ ageErr r = some m) ∧
      (("hypertension", m) ∈ fieldErrors r ↔ hypertensionErr r = some m) ∧
      (("heartDisease", m) ∈ fieldErrors r ↔ heartDiseaseErr r = some m) ∧
      (("smokingHistory", m) ∈ fieldErrors r ↔ smokingHistoryErr r = some m) ∧
      (("bmi", m) ∈ fieldErrors r ↔ bmiErr r = some m) ∧
      (("hba1c", m) ∈ fieldErrors r ↔ hba1cErr r = some m) ∧
      (("bloodGlucose", m) ∈ fieldErrors r ↔ bloodGlucoseErr r = some m)) ∧
    (∀ r : RawInput, validOk r = false ↔ fieldErrors r ≠ []) ∧
    validate scenarioB = Except.error [("age", "Age must be at least 1")] := by
  refine ⟨?_, ?_, ?_⟩
  · intro r m
    refine ⟨?_, ?_, ?_, ?_, ?_, ?_, ?_, ?_⟩ <;> simp +decide [fieldErrors, mem_entries]
  · intro r
    constructor
    · intro hv hfe
      rw [← validOk_iff r] at hfe
      simp [hv] at hfe
    · intro hne
      cases hv : validOk r
      · rfl
      · exact absurd ((validOk_iff r).mp hv) hne
  · norm_num +decide [validate, fieldErrors, entries, genderErr, ageErr, hypertensionErr,
      heartDiseaseErr, smokingHistoryErr, bmiErr, hba1cErr, bloodGlucoseErr, numErr, strErr,
      scenarioB]

/-- C7: a parsed response body with `final_result` = "Diabetic" yields the
diabetic prediction, and "Non-Diabetic" yields the non-diabetic
prediction, both with null confidence. -/
theorem final_result_labels_mapped :
    interpretResponse (NetResult.ok (some "Diabetic")) = ⟨"diabetic", none⟩ ∧
    interpretResponse (NetResult.ok (some "Non-Diabetic")) = ⟨"non-diabetic", none⟩ := by
  constructor <;> simp +decide [interpretResponse]

/-- C8: every `onSubmit` run first clears the previous result and raises
the loading flag before any network activity; the final state is terminal
with `isLoading = false` and a freshly stored result on success and
failure alike; the final state is a function of the network outcome alone,
so no prior result value leaks into it; and a network error in particular
ends with exactly the error record and nothing from before. -/
theorem submit_resets_and_completes :
    (∀ s : ControllerState, (startSubmit s).result = none ∧ (startSubmit s).isLoading = true) ∧
    (∀ (s t : ControllerState) (n : NetResult), onSubmit s n = onSubmit t n) ∧
    (∀ (s : ControllerState) (n : NetResult),
      (onSubmit s n).isLoading = false ∧ (onSubmit s n).result = some (interpretResponse n)) ∧
    (∀ s : ControllerState,
      onSubmit s NetResult.fail = ⟨some ⟨"Error connecting to server.", none⟩, false⟩) :=
  ⟨fun _ => ⟨rfl, rfl⟩, fun _ _ _ => rfl, fun _ _ => ⟨rfl, rfl⟩, fun _ => rfl⟩

/-- C9: any input whose select fields are non-empty and whose numeric
fields lie within the declared bounds validates to the record holding
exactly the coerced input values; and a non-numeric (NaN) age is a
validation error — `validate` is total, so never a crash. -/
theorem in_range_input_validates (g hy hd sm : String) (a b h1 gl : ℚ)
    (hg : g ≠ "") (hhy : hy ≠ "") (hhd : hd ≠ "") (hsm : sm ≠ "")
    (ha1 : 1 ≤ a) (ha2 : a ≤ 120) (hb1 : 10 ≤ b) (hb2 : b ≤ 60)
    (hh1 : 3 ≤ h1) (hh2 : h1 ≤ 15) (hgl1 : 50 ≤ gl) (hgl2 : gl ≤ 400) :
    validate ⟨g, .num a, hy, hd, sm, .num b, .num h1, .num gl⟩ =
      Except.ok ⟨g, a, hy, hd, sm, b, h1, gl⟩ ∧
    validate nanAgeInput = Except.error [("age", "Expected number, received nan")] := by
  constructor
  · have hfe : fieldErrors ⟨g, .num a, hy, hd, sm, .num b, .num h1, .num gl⟩ = [] := by
      rw [fieldErrors_eq_nil]
      refine ⟨strErr_of_ne _ hg, ?_, strErr_of_ne _ hhy, strErr_of_ne _ hhd,
        strErr_of_ne _ hsm, ?_, ?_, ?_⟩ <;>
        simp [ageErr, bmiErr, hba1cErr, bloodGlucoseErr, numErr,
          not_lt.mpr ha1, not_lt.mpr ha2, not_lt.mpr hb1, not_lt.mpr hb2,
          not_lt.mpr hh1, not_lt.mpr hh2, not_lt.mpr hgl1, not_lt.mpr hgl2]
    simp [validate, hfe]
  · norm_num +decide [validate, fieldErrors, entries, genderErr, ageErr, hypertensionErr,
      heartDiseaseErr, smokingHistoryErr, bmiErr, hba1cErr, bloodGlucoseErr, numErr, strErr,
      nanAgeInput]

/-- C9, witnessed at scenario A's field values. -/
theorem in_range_input_validates_witness :
    validate ⟨"female", .num 45, "no", "no", "never", .num 24.5, .num 5.7, .num 100⟩ =
      Except.ok ⟨"female", 45, "no", "no", "never", 24.5, 5.7, 100⟩ ∧
    validate nanAgeInput = Except.error [("age", "Expected number, received nan")] :=
  in_range_input_validates "female" "no" "no" "never" 45 24.5 5.7 100
    (by decide) (by decide) (by decide) (by decide)
    (by norm_num) (by norm_num) (by norm_num) (by norm_num)
    (by norm_num) (by norm_num) (by norm_num) (by norm_num)

/-- C10: the result `onSubmit` stores always carries `confidence = null`,
on the success path and the error path alike, so the confidence percentage
line (guarded by the truthiness of `result.confidence`) never renders. -/
theorem confidence_always_null :
    ∀ (s : ControllerState) (n : NetResult),
      (onSubmit s n).result = some (interpretResponse n) ∧
      (interpretResponse n).confidence = none ∧
      showConfidence (interpretResponse n) = false := by
  intro s n
  refine ⟨rfl, ?_, ?_⟩ <;> cases n <;> rfl

end Diabetes
